import Mathlib

/-!
Shallow embedding of `performance_benchmark.py` (Power BI PBIP connector
performance benchmark tool).

The fixture generator `create_performance_test_project` is embedded as a pure
function producing a structured description of every file it writes (file
names, declared table names, columns, measures, relationships, report tree).
The benchmark driver `run_benchmarks` is embedded with the external connector
treated as an opaque oracle: each timed operation either returns an elapsed
time (a rational, modelling the nonnegative float `elapsed_ms`) or raises.
Python exceptions are modelled with `Except`; the `try/finally` cleanup of the
scratch directory is modelled by an explicit `tryFinallyS` combinator over an
abstract filesystem state.
-/

/-- Decimal digit character for `d`; callers only ever pass `d < 10`
(larger arguments clamp to '9', matching no reachable code path). -/
def digitChar (d : Nat) : Char :=
  match d with
  | 0 => '0'
  | 1 => '1'
  | 2 => '2'
  | 3 => '3'
  | 4 => '4'
  | 5 => '5'
  | 6 => '6'
  | 7 => '7'
  | 8 => '8'
  | _ => '9'

/-- Decimal digit list of a natural number, most significant digit first,
mirroring Python `str(n)` for a nonnegative `n`. -/
def natDigits (n : Nat) : List Char :=
  if n < 10 then [digitChar n]
  else natDigits (n / 10) ++ [digitChar (n % 10)]
decreasing_by omega

/-- Value of a decimal digit string (inverse of `natDigits`). -/
def digitsVal : List Char → Nat
  | [] => 0
  | c :: cs => (c.toNat - 48) * 10 ^ cs.length + digitsVal cs

/-- Python `str(n)` for a natural number. -/
def natStr (n : Nat) : String := String.mk (natDigits n)

/-- Python format spec `{:0wd}`: the decimal digits of `n` left-padded with
zeros to minimum width `w`. -/
def fmt (w n : Nat) : String :=
  String.mk (List.replicate (w - (natDigits n).length) '0' ++ natDigits n)

/-- `table_name = f"Table_{i+1:03d}"` (source line 64). -/
def table_name (i : Nat) : String := "Table_" ++ fmt 3 (i + 1)

/-- `safe_name = table_name if i % 3 != 0 else f"Table With Spaces_{i+1:03d}"`
(source line 65). -/
def safe_name (i : Nat) : String :=
  if i % 3 ≠ 0 then table_name i else "Table With Spaces_" ++ fmt 3 (i + 1)

/-- One `column` block of a generated table file (source lines 67-70). -/
structure ColumnDef where
  name : String
  dataType : String
deriving DecidableEq

/-- One `measure` line of a generated table file (source lines 72-76). -/
structure MeasureDef where
  name : String
  expr : String
deriving DecidableEq

/-- One file written under `definition/tables/` (source lines 63-84): the
on-disk file name, the table name declared on the `table` line, the five
columns, the optional measures and the padding blob. -/
structure TableFile where
  fileName : String
  declaredName : String
  columns : List ColumnDef
  measures : List MeasureDef
  padding : String
deriving DecidableEq

/-- One file written under `definition/relationships/` (source lines 87-96). -/
structure RelFile where
  fileName : String
  relName : String
  cardinality : String
  fromTable : String
  fromColumn : String
  toTable : String
  toColumn : String
deriving DecidableEq

/-- One entry of the `Values` projection list of a visual (source lines 124-133). -/
structure Projection where
  entity : String
  property : String
deriving DecidableEq

/-- One `visual.json` file written under
`pages/<page_id>/visuals/<visual_id>/` (source lines 113-138). -/
structure VisualFile where
  page_index : Nat
  page_id : String
  visual_id : String
  visual_type : String
  projections : List Projection
deriving DecidableEq

/-- The report subtree: PBIR Enhanced (report.json, pages.json and one
directory per visual, source lines 99-138) or PBIR Legacy (single report.json
with an empty section list, source lines 139-146). -/
inductive ReportTree where
  | enhanced (report_version : String) (pages : List String) (visuals : List VisualFile)
  | legacy (version : String) (sections : List String)
deriving DecidableEq

/-- Everything `create_performance_test_project` writes under the project
root (source lines 22-148). -/
structure Project where
  pbip_version : String
  tables : List TableFile
  relationships : List RelFile
  report : ReportTree
deriving DecidableEq

/-- `padding_per_table = "    " + "   " * (avg_table_size_kb * 100)`
(source line 61). -/
def repeatStr (s : String) : Nat → String
  | 0 => ""
  | n + 1 => s ++ repeatStr s n

/-- Padding blob appended to every table file (source line 61). -/
def padding_per_table (avg_table_size_kb : Nat) : String :=
  "    " ++ repeatStr "   " (avg_table_size_kb * 100)

/-- Measures of table `i`: two measures referencing the plain table name and
its first column when `i` is even, none when odd (source lines 72-76). -/
def table_measures (i : Nat) : List MeasureDef :=
  if i % 2 = 0 then
    [{ name := "MeasureCount", expr := "COUNTROWS(" ++ table_name i ++ ")" },
     { name := "MeasureSum", expr := "SUM(" ++ table_name i ++ "[Column_01])" }]
  else []

/-- The table file written for 0-based index `i` (source lines 63-84): the
file is created at `tables_dir / f"Table_X:03d.tmdl"` using the plain
`table_name`, while the `table` line inside declares `safe_name`. -/
def mkTableFile (avg_table_size_kb i : Nat) : TableFile :=
  { fileName := table_name i ++ ".tmdl"
    declaredName := safe_name i
    columns := (List.range 5).map
      (fun j => { name := "Column_" ++ fmt 2 (j + 1), dataType := "string" })
    measures := table_measures i
    padding := padding_per_table avg_table_size_kb }

/-- The relationship file written for 0-based index `i` (source lines 87-96). -/
def mkRelFile (i : Nat) : RelFile :=
  { fileName := "rel_" ++ natStr (i + 1) ++ ".tmdl"
    relName := "rel_" ++ natStr (i + 1)
    cardinality := "manyToOne"
    fromTable := "Table_" ++ fmt 3 (i + 1)
    fromColumn := "Column_01"
    toTable := "Table_" ++ fmt 3 (i + 2)
    toColumn := "Column_01" }

/-- The visual file written for 0-based index `v` (source lines 114-138):
page `page_(v DIV 5 + 1)`, id `visual_(v+1)`, a single card projection onto
`Table_(v MOD num_tables + 1)[Column_01]`. -/
def mkVisualFile (num_tables v : Nat) : VisualFile :=
  { page_index := v / 5 + 1
    page_id := "page_" ++ fmt 2 (v / 5 + 1)
    visual_id := "visual_" ++ fmt 3 (v + 1)
    visual_type := "card"
    projections := [{ entity := "Table_" ++ fmt 3 (v % num_tables + 1)
                      property := "Column_01" }] }

/-- Embedding of `create_performance_test_project` (source lines 22-148):
one table file per `i in range(num_tables)`, one relationship file per
`i in range(num_tables - 1)`, and a report tree selected by
`use_pbir_enhanced` with one visual file per `v in range(num_visuals)`. -/
def create_performance_test_project (num_tables num_visuals avg_table_size_kb : Nat)
    (use_pbir_enhanced : Bool) : Project :=
  { pbip_version := "1.0"
    tables := (List.range num_tables).map (mkTableFile avg_table_size_kb)
    relationships := (List.range (num_tables - 1)).map mkRelFile
    report :=
      if use_pbir_enhanced then
        ReportTree.enhanced "2.0" ["Page1"]
          ((List.range num_visuals).map (mkVisualFile num_tables))
      else ReportTree.legacy "1.0" [] }

/-- The visual files of a project's report subtree (empty for Legacy). -/
def project_visuals (p : Project) : List VisualFile :=
  match p.report with
  | ReportTree.enhanced _ _ vs => vs
  | ReportTree.legacy _ _ => []

/-- One timing sample: `{"operation": label, "time_ms": elapsed}`
(appended to `results["benchmarks"]`, e.g. source line 208). -/
structure Sample where
  operation : String
  time_ms : ℚ
deriving DecidableEq

/-- Bool-valued prefix test on character lists (helper for `containsStr`). -/
def isPrefixB : List Char → List Char → Bool
  | [], _ => true
  | _ :: _, [] => false
  | a :: as, b :: bs => a == b && isPrefixB as bs

/-- Python substring test `needle in haystack` (case-sensitive). -/
def containsStr (haystack needle : String) : Bool :=
  (List.range (haystack.data.length + 1)).any
    (fun i => isPrefixB needle.data (haystack.data.drop i))

/-- `[b for b in benchmarks if tier in b["operation"]]` (source lines 302-304). -/
def tier_ops (tier : String) (benchmarks : List Sample) : List Sample :=
  benchmarks.filter (fun b => containsStr b.operation tier)

/-- `sum(b['time_ms'] for b in ops) / len(ops)` (source lines 306-308, 312-313,
326-328); only ever evaluated behind the zero-length guard of `safe_avg`. -/
def avg_ms (ops : List Sample) : ℚ :=
  (ops.map Sample.time_ms).sum / (ops.length : ℚ)

/-- A JSON-like value appearing in `results["summary"]`. -/
inductive JVal where
  | num (q : ℚ)
  | str (s : String)
deriving DecidableEq

/-- `results["summary"]` as built at source lines 325-329: exactly the three
per-tier averages, in insertion order. -/
def make_summary (sa ma la : ℚ) : List (String × JVal) :=
  [("small_avg_ms", JVal.num sa), ("medium_avg_ms", JVal.num ma),
   ("large_avg_ms", JVal.num la)]

/-- Python float division over a tier's sample list: raises
`ZeroDivisionError` when the tier has no samples (source lines 306-308 are
the first place this is evaluated, then again at lines 326-328). -/
def safe_avg (ops : List Sample) : Except String ℚ :=
  if ops.length = 0 then Except.error "ZeroDivisionError" else Except.ok (avg_ms ops)

/-- The per-tier averaging of `run_benchmarks` (source lines 302-308 and
325-329): partition the samples into the three tiers and average each,
propagating the `ZeroDivisionError` of an empty tier. -/
def compute_summary (b : List Sample) : Except String (List (String × JVal)) :=
  match safe_avg (tier_ops "small" b) with
  | Except.error e => Except.error e
  | Except.ok sa =>
    match safe_avg (tier_ops "medium" b) with
    | Except.error e => Except.error e
    | Except.ok ma =>
      match safe_avg (tier_ops "large" b) with
      | Except.error e => Except.error e
      | Except.ok la => Except.ok (make_summary sa ma la)

/-- The growth-classification branches printed at source lines 318-323,
named by the regime each branch reports. -/
def classify_scaling (f : ℚ) : String :=
  if f < 30 then "sub-linear" else if f < 100 then "linear" else "super-linear"

/-- The scaling analysis of source lines 311-323: guarded by
`if small_ops and large_ops` (Python truthiness: both lists nonempty), the
factor is `large_avg / small_avg if small_avg > 0 else 0`, and the printed
classification is chosen by the thresholds 30 and 100. -/
def scaling_analysis (b : List Sample) : Option (ℚ × String) :=
  let small_ops := tier_ops "small" b
  let large_ops := tier_ops "large" b
  if small_ops.isEmpty || large_ops.isEmpty then none
  else
    let small_avg := avg_ms small_ops
    let large_avg := avg_ms large_ops
    let f := if 0 < small_avg then large_avg / small_avg else 0
    some (f, classify_scaling f)

/-- Labels of the timed operations of the small tier, in execution order
(source lines 200-231); the rename check runs only here. -/
def small_labels : List String :=
  ["load_small", "validate_small", "fix_dax_small", "rename_table_small"]

/-- Labels of the timed operations of the medium tier (source lines 244-263). -/
def medium_labels : List String :=
  ["load_medium", "validate_medium", "fix_dax_medium"]

/-- Labels of the timed operations of the large tier (source lines 276-295). -/
def large_labels : List String :=
  ["load_large", "validate_large", "fix_dax_large"]

/-- Run a block of timed connector operations: the `k`-th global operation
either returns its elapsed time via `oracle k` or raises, aborting the run
(`benchmark_operation` propagates exceptions unmodified, source lines 151-171). -/
def run_ops (oracle : Nat → Except String ℚ) : List String → Nat → Except String (List Sample)
  | [], _ => Except.ok []
  | l :: ls, k =>
    match oracle k with
    | Except.error e => Except.error e
    | Except.ok t =>
      match run_ops oracle ls (k + 1) with
      | Except.error e => Except.error e
      | Except.ok rest => Except.ok ({ operation := l, time_ms := t } :: rest)

/-- The sample-collection portion of `run_benchmarks` (source lines 189-295):
generate the small fixture (`fg 0`), run its four operations, then the medium
fixture (`fg 1`) and its three operations, then the large fixture (`fg 2`)
and its three operations; any failure aborts the run. -/
def run_samples (fg : Nat → Except String Unit) (oracle : Nat → Except String ℚ) :
    Except String (List Sample) :=
  match fg 0 with
  | Except.error e => Except.error e
  | Except.ok _ =>
    match run_ops oracle small_labels 0 with
    | Except.error e => Except.error e
    | Except.ok s1 =>
      match fg 1 with
      | Except.error e => Except.error e
      | Except.ok _ =>
        match run_ops oracle medium_labels 4 with
        | Except.error e => Except.error e
        | Except.ok s2 =>
          match fg 2 with
          | Except.error e => Except.error e
          | Except.ok _ =>
            match run_ops oracle large_labels 7 with
            | Except.error e => Except.error e
            | Except.ok s3 => Except.ok (s1 ++ (s2 ++ s3))

/-- The artifact written to `benchmark_results.json` (source lines 181-184,
325-333): the full sample sequence under `benchmarks` and the averages-only
record under `summary`. -/
structure Artifact where
  benchmarks : List Sample
  summary : List (String × JVal)
deriving DecidableEq

/-- The body of the `try` block of `run_benchmarks` (source lines 188-335):
collect the samples, average them per tier (can raise `ZeroDivisionError`),
then write the artifact (`wr` models the fallible file write at lines
332-333). -/
def run_try (fg : Nat → Except String Unit) (oracle : Nat → Except String ℚ)
    (wr : Except String Unit) : Except String Artifact :=
  match run_samples fg oracle with
  | Except.error e => Except.error e
  | Except.ok b =>
    match compute_summary b with
    | Except.error e => Except.error e
    | Except.ok s =>
      match wr with
      | Except.error e => Except.error e
      | Except.ok _ => Except.ok { benchmarks := b, summary := s }

/-- Abstract filesystem state for the scratch directory: whether the
`mkdtemp` directory still exists, and how many times `shutil.rmtree` was
invoked on it. -/
structure FSState where
  temp_exists : Bool
  cleanup_calls : Nat
deriving DecidableEq

/-- `shutil.rmtree(temp_dir, ignore_errors=True)` (source line 339): one
recursive-delete invocation; if the deletion itself fails the error is
swallowed and the directory may survive, otherwise the directory is gone.
In either case no exception escapes. -/
def rmtree_ignore_errors (rm_fails : Bool) (s : FSState) : FSState :=
  { temp_exists := if rm_fails then s.temp_exists else false
    cleanup_calls := s.cleanup_calls + 1 }

/-- Python `try: body finally: fin` over an explicit state: the finaliser
runs exactly once on both the normal and the exceptional exit path, and the
body's outcome (value or exception) is returned unchanged. -/
def tryFinallyS {α σ : Type} (body : Except String α) (fin : σ → σ) (s : σ) :
    Except String α × σ :=
  match body with
  | Except.ok a => (Except.ok a, fin s)
  | Except.error e => (Except.error e, fin s)

/-- Embedding of `run_benchmarks` (source lines 174-339): `mkdtemp` creates
the scratch root, the `try` body runs, and the `finally` block deletes the
scratch root best-effort exactly once on every exit path. -/
def run_benchmarks (fg : Nat → Except String Unit) (oracle : Nat → Except String ℚ)
    (wr : Except String Unit) (rm_fails : Bool) : Except String Artifact × FSState :=
  tryFinallyS (run_try fg oracle wr) (rmtree_ignore_errors rm_fails)
    { temp_exists := true, cleanup_calls := 0 }

/-- The sample sequence of a failure-free run, with the elapsed time of the
`k`-th operation written `t k` (source lines 200-295, in execution order). -/
def complete_run_samples (t : Nat → ℚ) : List Sample :=
  [{ operation := "load_small", time_ms := t 0 },
   { operation := "validate_small", time_ms := t 1 },
   { operation := "fix_dax_small", time_ms := t 2 },
   { operation := "rename_table_small", time_ms := t 3 },
   { operation := "load_medium", time_ms := t 4 },
   { operation := "validate_medium", time_ms := t 5 },
   { operation := "fix_dax_medium", time_ms := t 6 },
   { operation := "load_large", time_ms := t 7 },
   { operation := "validate_large", time_ms := t 8 },
   { operation := "fix_dax_large", time_ms := t 9 }]

theorem digitChar_toNat (d : Nat) (hd : d < 10) : (digitChar d).toNat = 48 + d := by
  interval_cases d <;> decide

theorem digitChar_ne_space (d : Nat) : digitChar d ≠ ' ' := by
  unfold digitChar
  split <;> decide

theorem natDigits_ne_space (n : Nat) (c : Char) (hc : c ∈ natDigits n) : c ≠ ' ' := by
  induction n using Nat.strong_induction_on with
  | _ n ih =>
    rw [natDigits] at hc
    by_cases h : n < 10
    · simp only [if_pos h, List.mem_singleton] at hc
      exact hc ▸ digitChar_ne_space n
    · simp only [if_neg h, List.mem_append, List.mem_singleton] at hc
      rcases hc with hc | hc
      · exact ih (n / 10) (by omega) hc
      · exact hc ▸ digitChar_ne_space (n % 10)

theorem digitsVal_append_digit (l : List Char) (c : Char) :
    digitsVal (l ++ [c]) = 10 * digitsVal l + (c.toNat - 48) := by
  induction l with
  | nil => simp [digitsVal]
  | cons x xs ih =>
    have hlen : (xs ++ [c]).length = xs.length + 1 := by simp
    calc digitsVal ((x :: xs) ++ [c])
        = (x.toNat - 48) * 10 ^ (xs ++ [c]).length + digitsVal (xs ++ [c]) := rfl
      _ = (x.toNat - 48) * 10 ^ (xs.length + 1) + (10 * digitsVal xs + (c.toNat - 48)) := by
          rw [hlen, ih]
      _ = 10 * ((x.toNat - 48) * 10 ^ xs.length + digitsVal xs) + (c.toNat - 48) := by ring
      _ = 10 * digitsVal (x :: xs) + (c.toNat - 48) := rfl

theorem digitsVal_natDigits (n : Nat) : digitsVal (natDigits n) = n := by
  induction n using Nat.strong_induction_on with
  | _ n ih =>
    rw [natDigits]
    by_cases h : n < 10
    · simp only [if_pos h, digitsVal, List.length_nil, pow_zero, Nat.mul_one, Nat.add_zero]
      rw [digitChar_toNat n h]
      omega
    · rw [if_neg h, digitsVal_append_digit, ih (n / 10) (by omega),
        digitChar_toNat (n % 10) (by omega)]
      omega

theorem digitsVal_replicate_zero (k : Nat) (l : List Char) :
    digitsVal (List.replicate k '0' ++ l) = digitsVal l := by
  induction k with
  | zero => simp
  | succ k ih =>
    have h0 : '0'.toNat - 48 = 0 := by decide
    simp [List.replicate_succ, List.cons_append, digitsVal, h0, ih]

theorem natDigits_inj {a b : Nat} (h : natDigits a = natDigits b) : a = b := by
  have h2 := congrArg digitsVal h
  rwa [digitsVal_natDigits, digitsVal_natDigits] at h2

theorem fmt_data (w n : Nat) :
    (fmt w n).data = List.replicate (w - (natDigits n).length) '0' ++ natDigits n := rfl

theorem natStr_data (n : Nat) : (natStr n).data = natDigits n := rfl

theorem fmt_data_inj (w : Nat) {a b : Nat} (h : (fmt w a).data = (fmt w b).data) : a = b := by
  rw [fmt_data, fmt_data] at h
  have h2 := congrArg digitsVal h
  rwa [digitsVal_replicate_zero, digitsVal_replicate_zero,
    digitsVal_natDigits, digitsVal_natDigits] at h2

theorem natStr_data_inj {a b : Nat} (h : (natStr a).data = (natStr b).data) : a = b :=
  natDigits_inj (by rwa [natStr_data, natStr_data] at h)

theorem space_not_mem_fmt (w n : Nat) : ' ' ∉ (fmt w n).data := by
  rw [fmt_data]
  intro hmem
  rcases List.mem_append.mp hmem with h | h
  · exact absurd (List.eq_of_mem_replicate h) (by decide)
  · exact natDigits_ne_space n ' ' h rfl

theorem mkTableFile_fileName_inj (kb : Nat) :
    Function.Injective (TableFile.fileName ∘ mkTableFile kb) := by
  intro a b h
  simp only [Function.comp, mkTableFile, table_name] at h
  have hd := congrArg String.data h
  simp only [String.data_append] at hd
  have h2 := List.append_cancel_right hd
  have h3 := List.append_cancel_left h2
  have h4 := fmt_data_inj 3 h3
  omega

theorem mkRelFile_fileName_inj :
    Function.Injective (RelFile.fileName ∘ mkRelFile) := by
  intro a b h
  simp only [Function.comp, mkRelFile] at h
  have hd := congrArg String.data h
  simp only [String.data_append] at hd
  have h2 := List.append_cancel_right hd
  have h3 := List.append_cancel_left h2
  have h4 := natStr_data_inj h3
  omega

theorem mkVisualFile_visual_id_inj (nt : Nat) :
    Function.Injective (VisualFile.visual_id ∘ mkVisualFile nt) := by
  intro a b h
  simp only [Function.comp, mkVisualFile] at h
  have hd := congrArg String.data h
  simp only [String.data_append] at hd
  have h2 := List.append_cancel_left hd
  have h3 := fmt_data_inj 3 h2
  omega

theorem pages_toFinset (n : Nat) :
    ((List.range n).map (fun v => v / 5 + 1)).toFinset = Finset.Icc 1 ((n + 4) / 5) := by
  ext k
  simp only [List.mem_toFinset, List.mem_map, List.mem_range, Finset.mem_Icc]
  constructor
  · rintro ⟨v, hv, rfl⟩
    omega
  · rintro ⟨h1, h2⟩
    exact ⟨5 * (k - 1), by omega, by omega⟩

/-- Claim C1: for every ScenarioSpec with positive `table_count`, the
generator produces exactly `table_count` table files (pairwise distinct
names) under the tables collection, exactly `table_count - 1` relationship
files under the relationships collection, and in the Enhanced variant
exactly `visual_count` visual descriptor files (pairwise distinct ids)
distributed across `ceil(visual_count / 5) = (visual_count + 4) / 5`
distinct pages. -/
theorem C1_fixture_file_counts (nt nv kb : Nat) (h : 0 < nt) :
    (create_performance_test_project nt nv kb true).tables.length = nt ∧
    ((create_performance_test_project nt nv kb true).tables.map TableFile.fileName).Nodup ∧
    (create_performance_test_project nt nv kb true).relationships.length = nt - 1 ∧
    ((create_performance_test_project nt nv kb true).relationships.map RelFile.fileName).Nodup ∧
    (project_visuals (create_performance_test_project nt nv kb true)).length = nv ∧
    ((project_visuals (create_performance_test_project nt nv kb true)).map
      VisualFile.visual_id).Nodup ∧
    ((project_visuals (create_performance_test_project nt nv kb true)).map
      VisualFile.page_index).toFinset.card = (nv + 4) / 5 := by
  refine ⟨?_, ?_, ?_, ?_, ?_, ?_, ?_⟩
  · simp [create_performance_test_project]
  · simp only [create_performance_test_project, List.map_map]
    exact List.Nodup.map (mkTableFile_fileName_inj kb) (List.nodup_range nt)
  · simp [create_performance_test_project]
  · simp only [create_performance_test_project, List.map_map]
    exact List.Nodup.map mkRelFile_fileName_inj (List.nodup_range (nt - 1))
  · simp [create_performance_test_project, project_visuals]
  · simp only [create_performance_test_project, if_pos, project_visuals, List.map_map]
    exact List.Nodup.map (mkVisualFile_visual_id_inj nt) (List.nodup_range nv)
  · simp only [create_performance_test_project, if_pos, project_visuals, List.map_map]
    have hfn : VisualFile.page_index ∘ mkVisualFile nt = fun v => v / 5 + 1 := rfl
    rw [hfn, pages_toFinset, Nat.card_Icc]
    omega

theorem C1_fixture_file_counts_witness :
    0 < 10 ∧
    ((create_performance_test_project 10 20 5 true).tables.length = 10 ∧
    ((create_performance_test_project 10 20 5 true).tables.map TableFile.fileName).Nodup ∧
    (create_performance_test_project 10 20 5 true).relationships.length = 10 - 1 ∧
    ((create_performance_test_project 10 20 5 true).relationships.map RelFile.fileName).Nodup ∧
    (project_visuals (create_performance_test_project 10 20 5 true)).length = 20 ∧
    ((project_visuals (create_performance_test_project 10 20 5 true)).map
      VisualFile.visual_id).Nodup ∧
    ((project_visuals (create_performance_test_project 10 20 5 true)).map
      VisualFile.page_index).toFinset.card = (20 + 4) / 5) :=
  ⟨by decide, C1_fixture_file_counts 10 20 5 (by decide)⟩

/-- Claim C8: in the Enhanced report variant, for every 0-based visual index
`j < visual_count`, visual `j` is created under page `(j / 5) + 1` and
references table `(j MOD table_count) + 1`'s first column `Column_01` as its
sole data projection; the generator is a pure function of the spec, so the
layout is deterministic for every run with the same ScenarioSpec. -/
theorem C8_visual_placement (nt nv kb j : Nat) (hj : j < nv) :
    (project_visuals (create_performance_test_project nt nv kb true))[j]? =
      some { page_index := j / 5 + 1
             page_id := "page_" ++ fmt 2 (j / 5 + 1)
             visual_id := "visual_" ++ fmt 3 (j + 1)
             visual_type := "card"
             projections := [{ entity := "Table_" ++ fmt 3 (j % nt + 1)
                               property := "Column_01" }] } := by
  simp [project_visuals, create_performance_test_project, List.getElem?_map,
    List.getElem?_range, hj, mkVisualFile]

theorem C8_visual_placement_witness :
    7 < 20 ∧
    (project_visuals (create_performance_test_project 10 20 5 true))[7]? =
      some { page_index := 7 / 5 + 1
             page_id := "page_" ++ fmt 2 (7 / 5 + 1)
             visual_id := "visual_" ++ fmt 3 (7 + 1)
             visual_type := "card"
             projections := [{ entity := "Table_" ++ fmt 3 (7 % 10 + 1)
                               property := "Column_01" }] } :=
  ⟨by decide, C8_visual_placement 10 20 5 7 (by decide)⟩

/-- Claim C9: for every generated fixture and every 0-based table index
`i < table_count`, the table file at even `i` contains exactly the two
derived measures `MeasureCount = COUNTROWS(Table_XXX)` and
`MeasureSum = SUM(Table_XXX[Column_01])` referencing that table and its
first column, and the table file at odd `i` contains none. -/
theorem C9_table_measures (nt nv kb : Nat) (eb : Bool) (i : Nat) (hi : i < nt) :
    ((create_performance_test_project nt nv kb eb).tables.map TableFile.measures)[i]? =
      some (if i % 2 = 0 then
        [{ name := "MeasureCount", expr := "COUNTROWS(" ++ table_name i ++ ")" },
         { name := "MeasureSum", expr := "SUM(" ++ table_name i ++ "[Column_01])" }]
      else []) := by
  simp [create_performance_test_project, List.getElem?_map, List.getElem?_range,
    hi, mkTableFile, table_measures]

theorem C9_table_measures_witness :
    (2 < 10 ∧
    ((create_performance_test_project 10 20 5 true).tables.map TableFile.measures)[2]? =
      some (if 2 % 2 = 0 then
        [{ name := "MeasureCount", expr := "COUNTROWS(" ++ table_name 2 ++ ")" },
         { name := "MeasureSum", expr := "SUM(" ++ table_name 2 ++ "[Column_01])" }]
      else [])) ∧
    (3 < 10 ∧
    ((create_performance_test_project 10 20 5 true).tables.map TableFile.measures)[3]? =
      some (if 3 % 2 = 0 then
        [{ name := "MeasureCount", expr := "COUNTROWS(" ++ table_name 3 ++ ")" },
         { name := "MeasureSum", expr := "SUM(" ++ table_name 3 ++ "[Column_01])" }]
      else [])) :=
  ⟨⟨by decide, C9_table_measures 10 20 5 true 2 (by decide)⟩,
   ⟨by decide, C9_table_measures 10 20 5 true 3 (by decide)⟩⟩

/-- Claim C10: for every generated fixture and every 0-based table index
`i < table_count`, the on-disk table file is always named with the plain
underscore form `Table_XXX.tmdl` (no space character), even for
`i MOD 3 = 0` where the table name declared inside the file embeds spaces;
so the declared name agrees with the plain name exactly when `i MOD 3` is
nonzero, and embeds a space when `i MOD 3 = 0`. -/
theorem C10_table_file_naming (nt nv kb : Nat) (eb : Bool) (i : Nat) (hi : i < nt) :
    ((create_performance_test_project nt nv kb eb).tables.map TableFile.fileName)[i]? =
      some (table_name i ++ ".tmdl") ∧
    ' ' ∉ (table_name i ++ ".tmdl").data ∧
    ((create_performance_test_project nt nv kb eb).tables.map TableFile.declaredName)[i]? =
      some (safe_name i) ∧
    (safe_name i = table_name i ↔ i % 3 ≠ 0) ∧
    (i % 3 = 0 → ' ' ∈ (safe_name i).data) := by
  refine ⟨?_, ?_, ?_, ?_, ?_⟩
  · simp [create_performance_test_project, List.getElem?_map, List.getElem?_range,
      hi, mkTableFile]
  · intro hmem
    simp only [table_name, String.data_append, List.mem_append] at hmem
    rcases hmem with (hm | hm) | hm
    · exact absurd hm (by decide)
    · exact space_not_mem_fmt 3 (i + 1) hm
    · exact absurd hm (by decide)
  · simp [create_performance_test_project, List.getElem?_map, List.getElem?_range,
      hi, mkTableFile]
  · constructor
    · intro heq
      by_contra h3
      rw [safe_name, if_neg (show ¬i % 3 ≠ 0 by omega)] at heq
      have hlen := congrArg String.length heq
      rw [String.length_append, table_name, String.length_append] at hlen
      have h18 : "Table With Spaces_".length = 18 := by decide
      have h6 : "Table_".length = 6 := by decide
      omega
    · intro h3
      rw [safe_name, if_pos h3]
  · intro h3
    rw [safe_name, if_neg (by omega)]
    rw [String.data_append]
    exact List.mem_append.mpr (Or.inl (by decide))

theorem C10_table_file_naming_witness :
    0 < 10 ∧
    (((create_performance_test_project 10 20 5 true).tables.map TableFile.fileName)[0]? =
      some (table_name 0 ++ ".tmdl") ∧
    ' ' ∉ (table_name 0 ++ ".tmdl").data ∧
    ((create_performance_test_project 10 20 5 true).tables.map TableFile.declaredName)[0]? =
      some (safe_name 0) ∧
    (safe_name 0 = table_name 0 ↔ 0 % 3 ≠ 0) ∧
    (0 % 3 = 0 → ' ' ∈ (safe_name 0).data)) :=
  ⟨by decide, C10_table_file_naming 10 20 5 true 0 (by decide)⟩

/-- A sample whose label contains two tier substrings, refuting the
"assigned to exactly one tier (first match wins)" part of claim C2: the
three filters at source lines 302-304 are independent, so this sample is
placed in BOTH the small and the medium group. -/
theorem C2_counterexample :
    tier_ops "small" [{ operation := "load_small_medium", time_ms := 1 }] =
      [{ operation := "load_small_medium", time_ms := 1 }] ∧
    tier_ops "medium" [{ operation := "load_small_medium", time_ms := 1 }] =
      [{ operation := "load_small_medium", time_ms := 1 }] := by
  constructor <;> decide

/-- Claim C2 (amended): every sample is grouped by case-sensitive
tier-substring membership of its `operation_label`; a label matching several
tier substrings is included in EVERY matching tier's group (the three
filters are independent, there is no first-match-wins), and a label
containing no tier substring is silently excluded from every tier's
aggregation. -/
theorem C2_tier_grouping (l : List Sample) (s : Sample) (tier : String) :
    s ∈ tier_ops tier l ↔ s ∈ l ∧ containsStr s.operation tier = true := by
  simp [tier_ops, List.mem_filter]

theorem avg_ms_nonneg (ops : List Sample) (h : ∀ s ∈ ops, 0 ≤ s.time_ms) :
    0 ≤ avg_ms ops := by
  apply div_nonneg
  · apply List.sum_nonneg
    intro x hx
    rcases List.mem_map.mp hx with ⟨s, hs, rfl⟩
    exact h s hs
  · exact_mod_cast Nat.zero_le _

/-- Claim C3: when both the smallest and largest tiers have at least one
sample (and samples are nonnegative, as elapsed times are), the scaling
factor equals the largest-tier average divided by the smallest-tier
average, except it equals zero when the smallest-tier average is zero (the
analysis still produces a value, no error); the classification is
"sub-linear" below 30, "linear" below 100 and "super-linear" otherwise. -/
theorem C3_scaling_classification (b : List Sample)
    (hs : tier_ops "small" b ≠ []) (hl : tier_ops "large" b ≠ [])
    (hnn : ∀ s ∈ b, 0 ≤ s.time_ms) :
    scaling_analysis b = some
      ((if avg_ms (tier_ops "small" b) = 0 then 0
        else avg_ms (tier_ops "large" b) / avg_ms (tier_ops "small" b)),
       classify_scaling (if avg_ms (tier_ops "small" b) = 0 then 0
        else avg_ms (tier_ops "large" b) / avg_ms (tier_ops "small" b))) ∧
    (∀ f : ℚ, f < 30 → classify_scaling f = "sub-linear") ∧
    (∀ f : ℚ, 30 ≤ f → f < 100 → classify_scaling f = "linear") ∧
    (∀ f : ℚ, 100 ≤ f → classify_scaling f = "super-linear") := by
  have hnns : ∀ s ∈ tier_ops "small" b, 0 ≤ s.time_ms := fun s hsx =>
    hnn s (List.mem_filter.mp hsx).1
  have havg : 0 ≤ avg_ms (tier_ops "small" b) := avg_ms_nonneg _ hnns
  have he1 : (tier_ops "small" b).isEmpty = false := by
    rw [List.isEmpty_eq_false]; exact hs
  have he2 : (tier_ops "large" b).isEmpty = false := by
    rw [List.isEmpty_eq_false]; exact hl
  refine ⟨?_, ?_, ?_, ?_⟩
  · simp only [scaling_analysis, he1, he2, Bool.or_self, Bool.false_eq_true, if_false]
    by_cases h0 : avg_ms (tier_ops "small" b) = 0
    · rw [if_neg (by rw [h0]; exact lt_irrefl 0), if_pos h0]
    · rw [if_pos (lt_of_le_of_ne havg (Ne.symm h0)), if_neg h0]
  · intro f hf
    unfold classify_scaling
    rw [if_pos hf]
  · intro f hf1 hf2
    unfold classify_scaling
    rw [if_neg (by linarith), if_pos hf2]
  · intro f hf
    unfold classify_scaling
    rw [if_neg (by linarith), if_neg (by linarith)]

/-- Concrete samples for the C3 witness: tier averages small = 10,
large = 25 give factor 5/2 and classification sub-linear. -/
def c3_demo : List Sample :=
  [{ operation := "load_small", time_ms := 10 },
   { operation := "load_large", time_ms := 25 }]

theorem C3_scaling_classification_witness :
    (tier_ops "small" c3_demo ≠ [] ∧ tier_ops "large" c3_demo ≠ [] ∧
      (∀ s ∈ c3_demo, 0 ≤ s.time_ms) ∧
      scaling_analysis c3_demo = some (5 / 2, "sub-linear")) ∧
    (scaling_analysis c3_demo = some
      ((if avg_ms (tier_ops "small" c3_demo) = 0 then 0
        else avg_ms (tier_ops "large" c3_demo) / avg_ms (tier_ops "small" c3_demo)),
       classify_scaling (if avg_ms (tier_ops "small" c3_demo) = 0 then 0
        else avg_ms (tier_ops "large" c3_demo) / avg_ms (tier_ops "small" c3_demo))) ∧
    (∀ f : ℚ, f < 30 → classify_scaling f = "sub-linear") ∧
    (∀ f : ℚ, 30 ≤ f → f < 100 → classify_scaling f = "linear") ∧
    (∀ f : ℚ, 100 ≤ f → classify_scaling f = "super-linear")) :=
  ⟨⟨by decide, by decide, by decide, by
      have h1 : tier_ops "small" c3_demo =
        [{ operation := "load_small", time_ms := 10 }] := rfl
      have h2 : tier_ops "large" c3_demo =
        [{ operation := "load_large", time_ms := 25 }] := rfl
      have h3 : avg_ms [({ operation := "load_small", time_ms := 10 } : Sample)] = 10 := by
        simp [avg_ms]
      have h4 : avg_ms [({ operation := "load_large", time_ms := 25 } : Sample)] = 25 := by
        simp [avg_ms]
      simp only [scaling_analysis, h1, h2, h3, h4]
      norm_num [classify_scaling]⟩,
   C3_scaling_classification c3_demo (by decide) (by decide) (by decide)⟩

/-- Claim C7: per-tier averaging fails with the division-by-zero error
exactly when some configured tier has zero samples, and produces the
averages-only summary exactly when every configured tier contributed at
least one sample. -/
theorem C7_empty_tier_divzero (b : List Sample) :
    (compute_summary b = Except.error "ZeroDivisionError" ↔
      (tier_ops "small" b = [] ∨ tier_ops "medium" b = [] ∨ tier_ops "large" b = [])) ∧
    (compute_summary b = Except.ok (make_summary (avg_ms (tier_ops "small" b))
        (avg_ms (tier_ops "medium" b)) (avg_ms (tier_ops "large" b))) ↔
      (tier_ops "small" b ≠ [] ∧ tier_ops "medium" b ≠ [] ∧ tier_ops "large" b ≠ [])) := by
  unfold compute_summary safe_avg
  by_cases h1 : (tier_ops "small" b).length = 0 <;>
    by_cases h2 : (tier_ops "medium" b).length = 0 <;>
      by_cases h3 : (tier_ops "large" b).length = 0 <;>
        simp [h1, h2, h3, ← List.length_eq_zero]

/-- Claim C5: a failure-free benchmark run over the three tiers small,
medium, large in that order appends exactly 10 samples in execution order —
load, validate and fix samples for every tier, plus exactly one
rename-table sample, which occurs for the smallest tier only. -/
theorem C5_sample_sequence (t : Nat → ℚ) :
    run_samples (fun _ => Except.ok ()) (fun k => Except.ok (t k)) =
      Except.ok (complete_run_samples t) ∧
    (complete_run_samples t).length = 10 ∧
    (complete_run_samples t).map Sample.operation =
      ["load_small", "validate_small", "fix_dax_small", "rename_table_small",
       "load_medium", "validate_medium", "fix_dax_medium",
       "load_large", "validate_large", "fix_dax_large"] ∧
    ((complete_run_samples t).map Sample.operation).filter
      (fun l => containsStr l "rename") = ["rename_table_small"] := by
  exact ⟨rfl, rfl, rfl, rfl⟩

/-- Claim C4: on every exit path of a benchmark run — normal completion or
an unhandled failure raised by any step (fixture generation `fg`, any
connector operation via `oracle`, aggregation inside `run_try`, or the
artifact write `wr`) — the scratch root is recursively deleted exactly
once, the original outcome (value or exception) is returned unchanged even
when the deletion itself fails, and when the deletion succeeds the scratch
directory no longer exists. -/
theorem C4_cleanup_every_path (fg : Nat → Except String Unit)
    (oracle : Nat → Except String ℚ) (wr : Except String Unit) (rm_fails : Bool) :
    (run_benchmarks fg oracle wr rm_fails).2.cleanup_calls = 1 ∧
    (run_benchmarks fg oracle wr rm_fails).1 = run_try fg oracle wr ∧
    (run_benchmarks fg oracle wr false).2.temp_exists = false := by
  unfold run_benchmarks tryFinallyS rmtree_ignore_errors
  cases run_try fg oracle wr <;> simp

theorem run_try_complete (t : Nat → ℚ) :
    run_try (fun _ => Except.ok ()) (fun k => Except.ok (t k)) (Except.ok ()) =
      Except.ok { benchmarks := complete_run_samples t
                  summary := make_summary ((t 0 + t 1 + t 2 + t 3) / 4)
                    ((t 4 + t 5 + t 6) / 3) ((t 7 + t 8 + t 9) / 3) } := by
  have hS : tier_ops "small" (complete_run_samples t) =
      [{ operation := "load_small", time_ms := t 0 },
       { operation := "validate_small", time_ms := t 1 },
       { operation := "fix_dax_small", time_ms := t 2 },
       { operation := "rename_table_small", time_ms := t 3 }] := rfl
  have hM : tier_ops "medium" (complete_run_samples t) =
      [{ operation := "load_medium", time_ms := t 4 },
       { operation := "validate_medium", time_ms := t 5 },
       { operation := "fix_dax_medium", time_ms := t 6 }] := rfl
  have hL : tier_ops "large" (complete_run_samples t) =
      [{ operation := "load_large", time_ms := t 7 },
       { operation := "validate_large", time_ms := t 8 },
       { operation := "fix_dax_large", time_ms := t 9 }] := rfl
  have haS : avg_ms [{ operation := "load_small", time_ms := t 0 },
       { operation := "validate_small", time_ms := t 1 },
       { operation := "fix_dax_small", time_ms := t 2 },
       { operation := "rename_table_small", time_ms := t 3 }] =
      (t 0 + t 1 + t 2 + t 3) / 4 := by
    simp [avg_ms]
    ring_nf
  have haM : avg_ms [{ operation := "load_medium", time_ms := t 4 },
       { operation := "validate_medium", time_ms := t 5 },
       { operation := "fix_dax_medium", time_ms := t 6 }] =
      (t 4 + t 5 + t 6) / 3 := by
    simp [avg_ms]
    ring_nf
  have haL : avg_ms [{ operation := "load_large", time_ms := t 7 },
       { operation := "validate_large", time_ms := t 8 },
       { operation := "fix_dax_large", time_ms := t 9 }] =
      (t 7 + t 8 + t 9) / 3 := by
    simp [avg_ms]
    ring_nf
  have hcs : compute_summary (complete_run_samples t) =
      Except.ok (make_summary ((t 0 + t 1 + t 2 + t 3) / 4)
        ((t 4 + t 5 + t 6) / 3) ((t 7 + t 8 + t 9) / 3)) := by
    unfold compute_summary
    rw [hS, hM, hL]
    simp [safe_avg, haS, haM, haL]
  have hb : run_samples (fun _ => Except.ok ()) (fun k => Except.ok (t k)) =
      Except.ok (complete_run_samples t) := rfl
  simp only [run_try, hb, hcs]

/-- Counterexample to claim C6: a concrete failure-free run (every operation
takes 1 ms) whose persisted summary record holds exactly the three per-tier
averages — three numeric entries, no scaling-factor and no textual
growth-classification field — refuting the claim that the scaling factor
and classification are part of the record written into the artifact. -/
theorem C6_counterexample :
    run_try (fun _ => Except.ok ()) (fun _ => Except.ok 1) (Except.ok ()) =
      Except.ok { benchmarks := complete_run_samples (fun _ => 1)
                  summary := [("small_avg_ms", JVal.num 1), ("medium_avg_ms", JVal.num 1),
                              ("large_avg_ms", JVal.num 1)] } ∧
    ([("small_avg_ms", JVal.num 1), ("medium_avg_ms", JVal.num 1),
      ("large_avg_ms", JVal.num 1)].map Prod.fst =
      ["small_avg_ms", "medium_avg_ms", "large_avg_ms"]) ∧
    (([("small_avg_ms", JVal.num 1), ("medium_avg_ms", JVal.num 1),
       ("large_avg_ms", JVal.num 1)].all fun kv =>
        match kv.2 with
        | JVal.num _ => true
        | JVal.str _ => false) = true) := by
  refine ⟨?_, by decide, by decide⟩
  have h := run_try_complete (fun _ => (1 : ℚ))
  norm_num [make_summary] at h
  exact h

/-- Claim C6 (amended): the summary record derived at the end of a
failure-free run contains the per-tier average elapsed_ms for each of the
three tiers, and only those three numeric entries; it is written into the
persisted artifact alongside the full sample sequence, while the scaling
factor and the textual growth classification are only printed to the trace
(see `scaling_analysis`) and are not part of the artifact. -/
theorem C6_summary_record (t : Nat → ℚ) :
    run_try (fun _ => Except.ok ()) (fun k => Except.ok (t k)) (Except.ok ()) =
      Except.ok { benchmarks := complete_run_samples t
                  summary := make_summary ((t 0 + t 1 + t 2 + t 3) / 4)
                    ((t 4 + t 5 + t 6) / 3) ((t 7 + t 8 + t 9) / 3) } ∧
    (make_summary ((t 0 + t 1 + t 2 + t 3) / 4)
        ((t 4 + t 5 + t 6) / 3) ((t 7 + t 8 + t 9) / 3)).map Prod.fst =
      ["small_avg_ms", "medium_avg_ms", "large_avg_ms"] := by
  exact ⟨run_try_complete t, rfl⟩
